import Mathlib

/-!
# Learn-CG `final`: frame loop, key dispatch and `Mesh::Draw`

A shallow embedding of `src/final/src/main.cpp` and
`src/final/src/player/models/Mesh.cpp`.

Conventions of the embedding:

* Calls into OpenGL, GLFW and the collaborators whose sources are not part of the
  two files (`Manager`, `Player`, `ParticleGenerator`, `Explosion`, `Skybox`,
  `Text`, `Model`, `Shader`, `renderObjects`) are recorded, in program order, as
  a list of `Call`s.  Values returned by such collaborators
  (`glfwGetTime()`, `glfwGetKey`, `manager.isGameOver()`, `camera.GetViewMatrix()`,
  `player->position`, ...) are inputs of the frame.
* Floating point is not interpreted.  A `Flt` is the expression that produced the
  value (a literal of the source, a runtime value, or an operation applied to
  such); likewise `Mat4` and `Str`.
* `unsigned int` is `Nat` reduced modulo `2^32`; conversions to `int` go through
  `toInt32`.
-/

namespace LearnCG

/-! ## Uninterpreted floating-point values -/

/-- Float expressions.  `lit m e` is the decimal literal `m / 10^e` of the source
(`0.05f` is `lit 5 2`), `val t` a value that only exists at run time. -/
inductive Flt where
  | lit (mantissa : Int) (exponent : Nat)
  | val (tag : Nat)
  | sub (a b : Flt)
  | mul (a b : Flt)
  | div (a b : Flt)
  | radians (a : Flt)
  deriving DecidableEq, Repr

/-- Vector `glm::vec3`. -/
structure Vec3 where
  x : Flt
  y : Flt
  z : Flt
  deriving DecidableEq, Repr

/-- Constructor `glm::vec3(s)`: all three components equal to `s`. -/
def Vec3.splat (s : Flt) : Vec3 := ⟨s, s, s⟩

/-- Matrix expressions (`glm::mat4`). -/
inductive Mat4 where
  | ortho (left right bottom top zNear zFar : Flt)
  | ortho2D (left right bottom top : Flt)
  | lookAt (eye center up : Vec3)
  | perspective (fovy aspect zNear zFar : Flt)
  | mul (a b : Mat4)
  | identity
  | translate (m : Mat4) (v : Vec3)
  | ofMat3 (m : Mat4)
  | val (tag : Nat)
  deriving DecidableEq, Repr

/-- String expressions (`std::string`); `ofInt e` is `std::to_string((int) e)`. -/
inductive Str where
  | lit (s : String)
  | ofInt (e : Flt)
  | append (a b : Str)
  deriving DecidableEq, Repr

/-! ## Machine integers -/

/-- Value of an `unsigned int` expression whose mathematical value is `n`. -/
def u32 (n : Nat) : Nat := n % 2 ^ 32

/-- Conversion of an `unsigned int` to `int` (two's complement). -/
def toInt32 (n : Nat) : Int :=
  if n % 2 ^ 32 < 2 ^ 31 then ((n % 2 ^ 32 : Nat) : Int) else ((n % 2 ^ 32 : Nat) : Int) - 2 ^ 32

/-! ## Constants of `glfw3.h` and `glad.h` used by the two files -/

def GLFW_RELEASE : Int := 0
def GLFW_PRESS : Int := 1
def GLFW_REPEAT : Int := 2
def GLFW_KEY_SPACE : Int := 32
def GLFW_KEY_A : Int := 65
def GLFW_KEY_D : Int := 68
def GLFW_KEY_R : Int := 82
def GLFW_KEY_S : Int := 83
def GLFW_KEY_W : Int := 87
def GLFW_KEY_ESCAPE : Int := 256
def GLFW_KEY_RIGHT : Int := 262
def GLFW_KEY_LEFT : Int := 263
def GLFW_KEY_DOWN : Int := 264
def GLFW_KEY_UP : Int := 265
def GLFW_KEY_LEFT_SHIFT : Int := 340

def GL_DEPTH_BUFFER_BIT : Nat := 0x100
def GL_COLOR_BUFFER_BIT : Nat := 0x4000
def GL_TEXTURE0 : Nat := 0x84C0

/-- Window size, `main.cpp` lines 30-31. -/
def SCR_WIDTH : Nat := 1080
def SCR_HEIGHT : Nat := 700
/-- Shadow map size, `main.cpp` line 169. -/
def SHADOW_WIDTH : Nat := 1024
def SHADOW_HEIGHT : Nat := 1024

/-- The constant `movementSpeed = 3.0f`. -/
def movementSpeed : Flt := .lit 30 1
/-- The constant `mouseSensitivity = 0.2f`. -/
def mouseSensitivity : Flt := .lit 2 1

/-! ## Names of the program's objects -/

/-- Shader objects created in `main` (and the static one of `renderTitle`). -/
inductive ShaderId where
  | shader | depthShader | skyboxShader | playerShader | textShader | particleShader
  | fontShader
  deriving DecidableEq, Repr

/-- The five `vector<Object>` groups created in `main`; `endTiles` is the
variable `end` (goal tiles). -/
inductive ObjGroup where
  | ground | wall | box | dirt | endTiles
  deriving DecidableEq, Repr

/-- Framebuffer targets: `0` (the window) and `depthMapFBO`. -/
inductive Framebuffer where
  | window | depthMapFBO
  deriving DecidableEq, Repr

/-- Move directions passed to `Manager::playerMove`. -/
inductive Direction where
  | Forward | Left | Back | Right
  deriving DecidableEq, Repr

/-- Camera movement methods called by `processInput`. -/
inductive CameraMove where
  | moveForward | moveBack | moveLeft | moveRight | moveUp | moveDown
  deriving DecidableEq, Repr

/-- One observable call, in the order the program issues them. -/
inductive Call where
  | glfwSetWindowShouldClose (value : Bool)
  | cameraMove (m : CameraMove) (amount : Flt)
  | cameraRotate (xoffset yoffset : Flt)
  | managerPlayerMove (d : Direction)
  | managerResetObjsPos
  | explosionsReset
  | explosionsUpdate (dt : Flt) (n : Nat)
  | explosionsDraw (origin : Vec3)
  | particlesUpdate (dt : Flt) (newParticles : Nat)
  | particlesDraw (dt : Flt) (sh : ShaderId) (origin : Vec3)
  | glClearColor (r g b a : Flt)
  | glClear (mask : Nat)
  | glViewport (x y width height : Int)
  | glBindFramebuffer (fb : Framebuffer)
  | shaderUse (sh : ShaderId)
  | setMat4 (sh : ShaderId) (name : String) (m : Mat4)
  | setVec3 (sh : ShaderId) (name : String) (v : Vec3)
  | setInt (sh : ShaderId) (name : String) (v : Int)
  | renderObjects (g : ObjGroup) (sh : ShaderId) (renderShadow : Option Bool)
  | playerSetView (view : Mat4)
  | playerRender (sh : ShaderId) (lightPos : Vec3) (renderShadow : Option Bool)
  | skyboxRender (view projection : Mat4)
  | fontDraw (sh : ShaderId) (depthMap : Nat) (renderShadow : Bool)
  | textRenderText (sh : ShaderId) (text : Str) (x y scale : Flt) (color : Vec3)
  | glfwSwapBuffers
  | glActiveTexture (texture : Nat)
  | glUniform1i (sh : ShaderId) (name : String) (v : Int)
  | glBindTexture (texture : Nat)
  | glBindVertexArray (array : Nat)
  | glDrawElements (count : Int)
  deriving DecidableEq, Repr

/-! ## Global state of `main.cpp` -/

/-- Keyboard state of the GLFW window: `keys k` is `glfwGetKey(window, k)`. -/
structure Window where
  keys : Int → Int

/-- The mutable globals of `main.cpp`, the locals of `main` that live across
frames, and the close flag of the window. -/
structure State where
  lastX : Flt
  lastY : Flt
  firstMouse : Bool
  deltaTime : Flt
  lastFrame : Flt
  restart : Bool
  frameCount : Int
  fps : Str
  windowShouldClose : Bool

/-- Initial values: globals (lines 39-50) and the locals of `main` (lines 218-219). -/
def State.init : State where
  lastX := .div (.lit 1080 0) (.lit 20 1)
  lastY := .div (.lit 700 0) (.lit 20 1)
  firstMouse := true
  deltaTime := .lit 0 1
  lastFrame := .lit 0 1
  restart := false
  frameCount := 20
  fps := .lit "FPS: "
  windowShouldClose := false

/-! ## `key_callback` (lines 72-83) -/

/-- The function `key_callback`: the new state and the calls it issues.  The
parameters `key`, `scancode`, `action`, `mods` are those GLFW passes. -/
def key_callback (window : Window) (key scancode action mods : Int) (s : State) :
    State × List Call :=
  let s1 := if window.keys GLFW_KEY_R = GLFW_PRESS then { s with restart := true } else s
  if window.keys GLFW_KEY_UP = GLFW_PRESS then
    (s1, [Call.managerPlayerMove Direction.Forward])
  else if window.keys GLFW_KEY_LEFT = GLFW_PRESS then
    (s1, [Call.managerPlayerMove Direction.Left])
  else if window.keys GLFW_KEY_DOWN = GLFW_PRESS then
    (s1, [Call.managerPlayerMove Direction.Back])
  else if window.keys GLFW_KEY_RIGHT = GLFW_PRESS then
    (s1, [Call.managerPlayerMove Direction.Right])
  else
    (s1, [])

/-! ## The other callbacks and `processInput` -/

/-- The function `framebuffer_size_callback` (lines 33-35). -/
def framebuffer_size_callback (width height : Int) : List Call :=
  [Call.glViewport 0 0 width height]

/-- The function `mouse_callback` (lines 85-97). -/
def mouse_callback (xpos ypos : Flt) (s : State) : State × List Call :=
  let s1 := if s.firstMouse then { s with lastX := xpos, lastY := ypos, firstMouse := false } else s
  let xoffset := Flt.sub xpos s1.lastX
  let yoffset := Flt.sub s1.lastY ypos
  ({ s1 with lastX := xpos, lastY := ypos },
   [Call.cameraRotate (.mul xoffset mouseSensitivity) (.mul yoffset mouseSensitivity)])

/-- The function `processInput` (lines 55-70); `window` is the keyboard state the
polls see. -/
def processInput (window : Window) (s : State) : State × List Call :=
  let amount := Flt.mul s.deltaTime movementSpeed
  let pressed (k : Int) (c : Call) : List Call :=
    if window.keys k = GLFW_PRESS then [c] else []
  ({ s with windowShouldClose :=
       if window.keys GLFW_KEY_ESCAPE = GLFW_PRESS then true else s.windowShouldClose },
   pressed GLFW_KEY_ESCAPE (Call.glfwSetWindowShouldClose true)
     ++ pressed GLFW_KEY_W (Call.cameraMove .moveForward amount)
     ++ pressed GLFW_KEY_S (Call.cameraMove .moveBack amount)
     ++ pressed GLFW_KEY_A (Call.cameraMove .moveLeft amount)
     ++ pressed GLFW_KEY_D (Call.cameraMove .moveRight amount)
     ++ pressed GLFW_KEY_SPACE (Call.cameraMove .moveUp amount)
     ++ pressed GLFW_KEY_LEFT_SHIFT (Call.cameraMove .moveDown amount))

/-! ## Events delivered by `glfwPollEvents` -/

/-- An event GLFW delivers during `glfwPollEvents` (line 349).  A key event
carries the keyboard state `glfwGetKey` reports while its callback runs. -/
inductive Event where
  | key (window : Window) (key scancode action mods : Int)
  | cursorPos (xpos ypos : Flt)
  | framebufferSize (width height : Int)
  | close

/-- Dispatch of one event to the callback registered for it (lines 133-135); a
close request sets the close flag of the window. -/
def dispatch (e : Event) (s : State) : State × List Call :=
  match e with
  | .key window key scancode action mods => key_callback window key scancode action mods s
  | .cursorPos xpos ypos => mouse_callback xpos ypos s
  | .framebufferSize width height => (s, framebuffer_size_callback width height)
  | .close => ({ s with windowShouldClose := true }, [])

/-- The call `glfwPollEvents()`: the pending events are dispatched in order. -/
def glfwPollEvents : List Event → State → State × List Call
  | [], s => (s, [])
  | e :: es, s =>
    let r1 := dispatch e s
    let r2 := glfwPollEvents es r1.1
    (r2.1, r1.2 ++ r2.2)

/-! ## One iteration of the render loop (lines 238-349) -/

/-- What the environment supplies to one iteration of the loop. -/
structure FrameInput where
  /-- Result of `glfwGetTime()` (line 238). -/
  currentFrame : Flt
  /-- Keyboard state polled by `processInput` (line 243). -/
  window : Window
  /-- Result of `manager.isGameOver()` (line 305). -/
  isGameOver : Bool
  /-- Result of `camera.GetViewMatrix()` after `processInput`. -/
  viewMatrix : Mat4
  /-- Value of `camera.Position` (line 295). -/
  cameraPosition : Vec3
  /-- Value of `player->position` (line 314). -/
  playerPosition : Vec3
  /-- Events dispatched by `glfwPollEvents()` (line 349). -/
  events : List Event

/-- The local `lightPos` of `main` (line 234). -/
def lightPos : Vec3 := ⟨.lit (-20) 1, .lit 70 1, .lit 20 1⟩

/-- The local `lightSpaceMatrix` as computed in lines 255-260. -/
def lightSpaceMatrix : Mat4 :=
  let lightProjection :=
    Mat4.ortho (.lit (-100) 1) (.lit 100 1) (.lit (-100) 1) (.lit 100 1) (.lit 10 1) (.lit 150 1)
  let lightView :=
    Mat4.lookAt lightPos (Vec3.splat (.lit 0 1)) ⟨.lit 0 1, .lit 10 1, .lit 0 1⟩
  Mat4.mul lightProjection lightView

/-- The perspective projection of lines 288-290 (and 102-104). -/
def perspectiveProjection : Mat4 :=
  Mat4.perspective (.radians (.lit 450 1)) (.div (.lit 1080 0) (.lit 700 0)) (.lit 1 1)
    (.lit 1000 1)

/-- Lines 248-252: the restart block. -/
def restartBlock (s : State) : State × List Call :=
  if s.restart then
    ({ s with restart := false }, [Call.managerResetObjsPos, Call.explosionsReset])
  else (s, [])

/-- Lines 262-277: the depth pass. -/
def depthPass : List Call :=
  [ Call.shaderUse .depthShader,
    Call.setMat4 .depthShader "lightSpaceMatrix" lightSpaceMatrix,
    Call.glViewport 0 0 SHADOW_WIDTH SHADOW_HEIGHT,
    Call.glBindFramebuffer .depthMapFBO,
    Call.glClear GL_DEPTH_BUFFER_BIT,
    Call.renderObjects .ground .depthShader (some false),
    Call.renderObjects .dirt .depthShader (some false),
    Call.renderObjects .wall .depthShader (some false),
    Call.renderObjects .box .depthShader (some false),
    Call.renderObjects .endTiles .depthShader (some false),
    Call.playerRender .depthShader lightPos (some false),
    Call.glBindFramebuffer .window ]

/-- Lines 280-303: the colour pass up to the goal tiles. -/
def colorPass (inp : FrameInput) : List Call :=
  [ Call.glViewport 0 0 SCR_WIDTH SCR_HEIGHT,
    Call.glClear (GL_COLOR_BUFFER_BIT ||| GL_DEPTH_BUFFER_BIT),
    Call.glViewport 0 0 SCR_WIDTH SCR_HEIGHT,
    Call.glClear (GL_COLOR_BUFFER_BIT ||| GL_DEPTH_BUFFER_BIT),
    Call.shaderUse .shader,
    Call.setMat4 .shader "projection" perspectiveProjection,
    Call.setMat4 .shader "view" inp.viewMatrix,
    Call.setVec3 .shader "viewPos" inp.cameraPosition,
    Call.setVec3 .shader "lightPos" lightPos,
    Call.setMat4 .shader "lightSpaceMatrix" lightSpaceMatrix,
    Call.renderObjects .ground .shader none,
    Call.renderObjects .dirt .shader none,
    Call.renderObjects .wall .shader none,
    Call.renderObjects .box .shader none,
    Call.renderObjects .endTiles .shader none ]

/-- Lines 305-321: particles and explosions, only when the game is over. -/
def winOverlay (deltaTime : Flt) (inp : FrameInput) : List Call :=
  if inp.isGameOver then
    [ Call.shaderUse .particleShader,
      Call.setMat4 .particleShader "projection" perspectiveProjection,
      Call.setMat4 .particleShader "view" inp.viewMatrix,
      Call.particlesUpdate (.lit 5 2) 500,
      Call.particlesDraw deltaTime .particleShader ⟨.lit (-25) 1, .lit 0 1, .lit (-5) 1⟩,
      Call.particlesDraw deltaTime .particleShader ⟨.lit (-25) 1, .lit 0 1, .lit (-15) 1⟩,
      Call.particlesDraw deltaTime .particleShader ⟨.lit (-25) 1, .lit 0 1, .lit (-25) 1⟩,
      Call.particlesDraw deltaTime .particleShader inp.playerPosition,
      Call.explosionsUpdate deltaTime 1,
      Call.explosionsDraw ⟨.lit (-25) 1, .lit 0 1, .lit (-5) 1⟩,
      Call.explosionsDraw ⟨.lit (-25) 1, .lit 0 1, .lit (-15) 1⟩,
      Call.explosionsDraw ⟨.lit (-25) 1, .lit 0 1, .lit (-25) 1⟩ ]
  else []

/-- The function `renderTitle` (lines 99-113). -/
def renderTitle (inp : FrameInput) : List Call :=
  [ Call.shaderUse .fontShader,
    Call.setMat4 .fontShader "view" inp.viewMatrix,
    Call.setMat4 .fontShader "projection" perspectiveProjection,
    Call.setMat4 .fontShader "model"
      (Mat4.translate Mat4.identity ⟨.lit 0 1, .lit 50 1, .lit (-50) 1⟩),
    Call.fontDraw .fontShader 0 false ]

/-- Lines 323-336: player, skybox, title and the text shader set-up. -/
def playerAndOverlays (inp : FrameInput) : List Call :=
  [ Call.shaderUse .playerShader,
    Call.playerSetView inp.viewMatrix,
    Call.playerRender .playerShader lightPos none,
    Call.skyboxRender (Mat4.ofMat3 inp.viewMatrix) perspectiveProjection ]
  ++ renderTitle inp
  ++ [ Call.shaderUse .textShader,
       Call.setMat4 .textShader "projection"
         (Mat4.ortho2D (.lit 0 1) (.lit 1080 0) (.lit 0 1) (.lit 700 0)) ]

/-- Lines 338-343: the FPS string is recomputed when `frameCount == 20`. -/
def updateFps (s : State) : State :=
  if s.frameCount = 20 then
    { s with fps := Str.append (.lit "FPS: ") (.ofInt (.div (.lit 1 0) s.deltaTime)),
             frameCount := 0 }
  else { s with frameCount := s.frameCount + 1 }

/-- Lines 238-348: everything of one iteration before `glfwPollEvents()`. -/
def renderFrame (s : State) (inp : FrameInput) : State × List Call :=
  let s1 := { s with deltaTime := Flt.sub inp.currentFrame s.lastFrame,
                     lastFrame := inp.currentFrame }
  let r2 := processInput inp.window s1
  let r3 := restartBlock r2.1
  let s4 := updateFps r3.1
  (s4,
   r2.2
     ++ [ Call.glClearColor (.lit 1 1) (.lit 1 1) (.lit 1 1) (.lit 10 1),
          Call.glClear (GL_COLOR_BUFFER_BIT ||| GL_DEPTH_BUFFER_BIT) ]
     ++ r3.2
     ++ depthPass
     ++ colorPass inp
     ++ winOverlay s1.deltaTime inp
     ++ playerAndOverlays inp
     ++ [ Call.textRenderText .textShader s4.fps (.lit 250 1) (.lit 250 1) (.lit 7 1)
            ⟨.lit 5 1, .lit 8 1, .lit 2 1⟩,
          Call.glfwSwapBuffers ])

/-- One full iteration of the `while` loop (lines 238-349). -/
def frame (s : State) (inp : FrameInput) : State × List Call :=
  let r1 := renderFrame s inp
  let r2 := glfwPollEvents inp.events r1.1
  (r2.1, r1.2 ++ r2.2)

/-- The loop `while (!glfwWindowShouldClose(window))` of line 237, run on the
given frame inputs; it stops when the close flag is set or the inputs end. -/
def mainLoop : List FrameInput → State → State × List Call
  | [], s => (s, [])
  | inp :: rest, s =>
    if s.windowShouldClose then (s, [])
    else
      let r1 := frame s inp
      let r2 := mainLoop rest r1.1
      (r2.1, r1.2 ++ r2.2)

/-- State at the start of the `n`-th iteration (counted from 0) that the loop
executes, with the input of that iteration; `none` when the loop has left
before. -/
def frameAt : Nat → List FrameInput → State → Option (State × FrameInput)
  | _, [], _ => none
  | 0, inp :: _, s => if s.windowShouldClose then none else some (s, inp)
  | n + 1, inp :: rest, s =>
    if s.windowShouldClose then none else frameAt n rest (frame s inp).1

/-! ## `Mesh::Draw` (`Mesh.cpp` lines 13-56) -/

/-- The fields of `Texture` (declared in `Mesh.h`) that `Mesh::Draw` reads. -/
structure Texture where
  id : Nat
  type : String
  deriving DecidableEq, Repr

/-- The fields of `Mesh` that `Mesh::Draw` reads.  The colour is a stored value;
the test `mColor != glm::vec3(-1.0)` is inequality with the stored sentinel. -/
structure Mesh where
  indices : List Nat
  textures : List Texture
  mColor : Vec3
  VAO : Nat

/-- The value `glm::vec3(-1.0)` that marks a mesh without a colour of its own. -/
def sentinelColor : Vec3 := Vec3.splat (.lit (-10) 1)

/-- Locals of `Mesh::Draw` that the texture loop updates, with the calls
issued so far. -/
structure DrawLocals where
  i : Nat
  diffuseNr : Nat
  specularNr : Nat
  normalNr : Nat
  heightNr : Nat
  calls : List Call

/-- Lines 26-35: the local `number` of one iteration and the counters after it. -/
def numberFor (name : String) (st : DrawLocals) : String × DrawLocals :=
  if name = "texture_diffuse" then
    (toString st.diffuseNr, { st with diffuseNr := u32 (st.diffuseNr + 1) })
  else if name = "texture_specular" then
    (toString st.specularNr, { st with specularNr := u32 (st.specularNr + 1) })
  else if name = "texture_normal" then
    (toString st.normalNr, { st with normalNr := u32 (st.normalNr + 1) })
  else if name = "texture_height" then
    (toString st.heightNr, { st with heightNr := u32 (st.heightNr + 1) })
  else
    ("", st)

/-- The loop `for (i = 0; i < textures.size(); i++)` of lines 24-41, entered with
the locals `st`.  The index is an `unsigned int`, so the loop is run on fuel:
`none` when the fuel does not reach the loop exit. -/
def textureLoop (textures : List Texture) (shader : ShaderId) :
    Nat → DrawLocals → Option DrawLocals
  | 0, _ => none
  | fuel + 1, st =>
    if h : st.i < textures.length then
      let name := textures[st.i].type
      let r := numberFor name st
      textureLoop textures shader fuel
        { r.2 with
          i := u32 (st.i + 1)
          calls := st.calls ++
            [ Call.glActiveTexture (u32 (GL_TEXTURE0 + st.i)),
              Call.setVec3 shader "mColor" sentinelColor,
              Call.glUniform1i shader (name ++ r.1) (toInt32 st.i),
              Call.glBindTexture textures[st.i].id ] }
    else some st

/-- The method `Mesh::Draw(shader, depthMap, renderShadow)`: the calls it issues,
or `none` when `fuel` iterations do not finish the texture loop. -/
def Mesh.Draw (m : Mesh) (shader : ShaderId) (depthMap : Nat) (renderShadow : Bool)
    (fuel : Nat) : Option (List Call) :=
  let afterColor : Option DrawLocals :=
    if m.mColor ≠ sentinelColor then
      some { i := 0, diffuseNr := 1, specularNr := 1, normalNr := 1, heightNr := 1,
             calls := [Call.setVec3 shader "mColor" m.mColor] }
    else
      textureLoop m.textures shader fuel
        { i := 0, diffuseNr := 1, specularNr := 1, normalNr := 1, heightNr := 1, calls := [] }
  afterColor.map fun st =>
    st.calls
      ++ (if renderShadow then
            [ Call.setInt shader "shadowMap" (toInt32 st.i),
              Call.glActiveTexture (u32 (GL_TEXTURE0 + st.i)),
              Call.glBindTexture depthMap ]
          else [])
      ++ [ Call.glBindVertexArray m.VAO,
           Call.glDrawElements (toInt32 m.indices.length),
           Call.glBindVertexArray 0,
           Call.glActiveTexture GL_TEXTURE0 ]

/-! ## Reading a list of calls -/

/-- The texture bindings a list of calls makes: for every `glBindTexture`, the
texture unit selected by the latest `glActiveTexture` before it (`active` when
there is none) and the texture bound. -/
def textureBindings : Nat → List Call → List (Nat × Nat)
  | _, [] => []
  | _, Call.glActiveTexture t :: cs => textureBindings t cs
  | active, Call.glBindTexture id :: cs => (active, id) :: textureBindings active cs
  | active, _ :: cs => textureBindings active cs

/-- The texture unit selected after a list of calls, `active` being the unit
selected before it. -/
def activeUnit : Nat → List Call → Nat
  | active, [] => active
  | _, Call.glActiveTexture t :: cs => activeUnit t cs
  | active, _ :: cs => activeUnit active cs

/-- Name and value of a `glUniform1i` call. -/
def samplerUniform? : Call → Option (String × Int)
  | Call.glUniform1i _ name v => some (name, v)
  | _ => none

/-- The sampler uniforms set through `glUniform1i`: name and value, in order. -/
def samplerUniforms (calls : List Call) : List (String × Int) :=
  calls.filterMap samplerUniform?

/-- Name and value of a `Shader::setInt` call. -/
def setIntCall? : Call → Option (String × Int)
  | Call.setInt _ name v => some (name, v)
  | _ => none

/-- The `Shader::setInt` calls: name and value, in order. -/
def setIntCalls (calls : List Call) : List (String × Int) :=
  calls.filterMap setIntCall?

/-- The texture types that carry a number in their sampler name. -/
def numberedTypes : List String :=
  ["texture_diffuse", "texture_specular", "texture_normal", "texture_height"]

/-- Sampler name the texture at index `i` is expected to get: its type, followed,
for a numbered type, by the decimal of one plus the number of earlier textures of
the same type. -/
def samplerName (textures : List Texture) (i : Nat) (t : Texture) : String :=
  if t.type ∈ numberedTypes then
    t.type ++ toString (1 + (textures.take i).countP (fun e => e.type = t.type))
  else t.type

/-- The bindings of a mesh's own textures: the texture at index `i` on unit
`GL_TEXTURE0 + i`. -/
def materialBindings (textures : List Texture) : List (Nat × Nat) :=
  textures.enum.map fun p => (GL_TEXTURE0 + p.1, p.2.id)

/-- The sampler uniforms of a mesh's own textures: for the texture at index `i`,
its sampler name with the value `i`. -/
def materialUniforms (textures : List Texture) : List (String × Int) :=
  textures.enum.map fun p => (samplerName textures p.1 p.2, (p.1 : Int))

/-- Invariant of the texture loop after `k` iterations: index, the four counters,
and what the calls so far bind and set. -/
def LoopInv (textures : List Texture) (active0 k : Nat) (st : DrawLocals) : Prop :=
  st.i = k ∧ k ≤ textures.length
    ∧ st.diffuseNr = 1 + (textures.take k).countP (fun e => e.type = "texture_diffuse")
    ∧ st.specularNr = 1 + (textures.take k).countP (fun e => e.type = "texture_specular")
    ∧ st.normalNr = 1 + (textures.take k).countP (fun e => e.type = "texture_normal")
    ∧ st.heightNr = 1 + (textures.take k).countP (fun e => e.type = "texture_height")
    ∧ textureBindings active0 st.calls
        = (textures.take k).enum.map (fun p => (GL_TEXTURE0 + p.1, p.2.id))
    ∧ samplerUniforms st.calls
        = (textures.take k).enum.map (fun p => (samplerName textures p.1 p.2, (p.1 : Int)))
    ∧ setIntCalls st.calls = []

/-- A textured mesh with two diffuse maps, a normal map and a texture of an
unnumbered type. -/
def sampleMesh : Mesh where
  indices := [0, 1, 2]
  textures := [⟨7, "texture_diffuse"⟩, ⟨9, "texture_normal"⟩, ⟨4, "texture_diffuse"⟩, ⟨5, "mask"⟩]
  mColor := sentinelColor
  VAO := 3

/-- A mesh with a solid colour (and a texture that is therefore never bound). -/
def solidMesh : Mesh where
  indices := [0, 1, 2]
  textures := [⟨7, "texture_diffuse"⟩]
  mColor := ⟨.lit 5 1, .lit 8 1, .lit 2 1⟩
  VAO := 4

/-- The directions of the `manager.playerMove` calls of a list of calls. -/
def movesOf : List Call → List Direction
  | [] => []
  | Call.managerPlayerMove d :: cs => d :: movesOf cs
  | _ :: cs => movesOf cs

/-- The four arrow keys. -/
def isArrowKey (k : Int) : Bool :=
  k = GLFW_KEY_UP || k = GLFW_KEY_LEFT || k = GLFW_KEY_DOWN || k = GLFW_KEY_RIGHT

/-- Arrow keys in priority order Up, Left, Down, Right, each with the direction
it maps to. -/
def arrowPriority : List (Int × Direction) :=
  [ (GLFW_KEY_UP, Direction.Forward), (GLFW_KEY_LEFT, Direction.Left),
    (GLFW_KEY_DOWN, Direction.Back), (GLFW_KEY_RIGHT, Direction.Right) ]

/-- The move selected by the priority order: the direction of the first arrow key
of `arrowPriority` that is pressed, if any. -/
def chosenMove (window : Window) : Option Direction :=
  (arrowPriority.find? fun p => decide (window.keys p.1 = GLFW_PRESS)).map Prod.snd

/-- Edge-triggered dispatch for one key event: a move is applied only if the
event itself is the key-down of an arrow key. -/
def EdgeTriggered (window : Window) (key scancode action mods : Int) (s : State) : Prop :=
  movesOf (key_callback window key scancode action mods s).2 ≠ [] →
    action = GLFW_PRESS ∧ isArrowKey key = true

/-- Keyboard with exactly the keys of `held` pressed. -/
def keyboard (held : List Int) : Window :=
  ⟨fun k => if k ∈ held then GLFW_PRESS else GLFW_RELEASE⟩

/-! ## Predicates on calls, used to read the calls of a frame -/

/-- Calls issued by `processInput` and by the event callbacks. -/
def isHousekeeping : Call → Bool
  | .glfwSetWindowShouldClose _ => true
  | .cameraMove _ _ => true
  | .cameraRotate _ _ => true
  | .managerPlayerMove _ => true
  | .glViewport _ _ _ _ => true
  | _ => false

/-- Resets of the puzzle manager and of the explosion simulator. -/
def isReset : Call → Bool
  | .managerResetObjsPos => true
  | .explosionsReset => true
  | _ => false

/-- Calls on the particle simulator `Particles`. -/
def touchesParticles : Call → Bool
  | .particlesUpdate _ _ => true
  | .particlesDraw _ _ _ => true
  | _ => false

/-- Updates and draws of the particle and explosion simulators. -/
def isEffectCall : Call → Bool
  | .particlesUpdate _ _ => true
  | .particlesDraw _ _ _ => true
  | .explosionsUpdate _ _ => true
  | .explosionsDraw _ => true
  | _ => false

/-- The call `depthShader.use()` that opens the shadow pass (line 262). -/
def startsShadowPass : Call → Bool
  | .shaderUse .depthShader => true
  | _ => false

/-- Draws of world geometry issued with the depth shader. -/
def isDepthDraw : Call → Bool
  | .renderObjects _ .depthShader _ => true
  | .playerRender .depthShader _ _ => true
  | _ => false

/-- Every drawing call that does not use the depth shader. -/
def isColorDraw : Call → Bool
  | .renderObjects _ sh _ => sh != .depthShader
  | .playerRender sh _ _ => sh != .depthShader
  | .particlesDraw _ _ _ => true
  | .explosionsDraw _ => true
  | .skyboxRender _ _ => true
  | .fontDraw _ _ _ => true
  | .textRenderText _ _ _ _ _ _ => true
  | _ => false

/-- Framebuffer binds and depth-shader draws. -/
def isDepthDrawOrBind : Call → Bool
  | .glBindFramebuffer _ => true
  | c => isDepthDraw c

/-- Draws of a static terrain group (ground, dirt, wall, goal tiles) with the
scene shader. -/
def isStaticTerrainDraw : Call → Bool
  | .renderObjects .ground .shader _ => true
  | .renderObjects .dirt .shader _ => true
  | .renderObjects .wall .shader _ => true
  | .renderObjects .endTiles .shader _ => true
  | _ => false

/-- Draws of ground, dirt or wall with the scene shader. -/
def isGroundDirtWallDraw : Call → Bool
  | .renderObjects .ground .shader _ => true
  | .renderObjects .dirt .shader _ => true
  | .renderObjects .wall .shader _ => true
  | _ => false

/-- The draw of the movable boxes with the scene shader. -/
def isBoxDraw : Call → Bool
  | .renderObjects .box .shader _ => true
  | _ => false

/-- The draw of the goal tiles with the scene shader. -/
def isGoalDraw : Call → Bool
  | .renderObjects .endTiles .shader _ => true
  | _ => false

/-- The draw of the player with the player shader. -/
def isPlayerDraw : Call → Bool
  | .playerRender .playerShader _ _ => true
  | _ => false

/-- Draws with the scene shader or the player shader. -/
def isSceneOrPlayerDraw : Call → Bool
  | .renderObjects _ .shader _ => true
  | .playerRender .playerShader _ _ => true
  | _ => false

/-- The shader and matrix of a `setMat4("lightSpaceMatrix", m)` call. -/
def lightSpaceUniform? : Call → Option (ShaderId × Mat4)
  | Call.setMat4 sh name m => if name = "lightSpaceMatrix" then some (sh, m) else none
  | _ => none

/-- The `setMat4("lightSpaceMatrix", m)` calls: shader and matrix, in order. -/
def lightSpaceUniforms (calls : List Call) : List (ShaderId × Mat4) :=
  calls.filterMap lightSpaceUniform?

/-- Every call satisfying `p` comes strictly before every call satisfying `q`. -/
def Precedes (p q : Call → Bool) (calls : List Call) : Prop :=
  ∀ (i j : Nat) (a b : Call), calls[i]? = some a → calls[j]? = some b → p a = true → q b = true → i < j

/-- The calls of one iteration between `processInput` and `glfwPollEvents`
(lines 245-348), for the state `s` at the start of the iteration. -/
def coreCalls (s : State) (inp : FrameInput) : List Call :=
  [ Call.glClearColor (.lit 1 1) (.lit 1 1) (.lit 1 1) (.lit 10 1),
    Call.glClear (GL_COLOR_BUFFER_BIT ||| GL_DEPTH_BUFFER_BIT) ]
    ++ (if s.restart then [Call.managerResetObjsPos, Call.explosionsReset] else [])
    ++ depthPass
    ++ colorPass inp
    ++ winOverlay (Flt.sub inp.currentFrame s.lastFrame) inp
    ++ playerAndOverlays inp
    ++ [ Call.textRenderText .textShader (renderFrame s inp).1.fps (.lit 250 1) (.lit 250 1)
           (.lit 7 1) ⟨.lit 5 1, .lit 8 1, .lit 2 1⟩,
         Call.glfwSwapBuffers ]

/-- A frame input with no key pressed, the game not over and no pending event. -/
def quietInput : FrameInput where
  currentFrame := .val 0
  window := keyboard []
  isGameOver := false
  viewMatrix := .val 1
  cameraPosition := ⟨.lit 0 1, .lit 70 1, .lit 70 1⟩
  playerPosition := ⟨.val 2, .val 3, .val 4⟩
  events := []

/-- A frame input of a won game: as `quietInput`, with `isGameOver()` true. -/
def wonInput : FrameInput := { quietInput with isGameOver := true }

/-- The initial state with a restart requested. -/
def restartRequested : State := { State.init with restart := true }

/-- The restart handling asked of a frame that starts with the flag set: before
the shadow pass begins the frame resets the puzzle manager, the particle
simulator and the explosion simulator, and the flag is false afterwards. -/
def ResetsAllSimulators (s : State) (inp : FrameInput) : Prop :=
  Call.managerResetObjsPos ∈ (frame s inp).2.takeWhile (fun c => !startsShadowPass c)
    ∧ (∃ c ∈ (frame s inp).2.takeWhile (fun c => !startsShadowPass c), touchesParticles c = true)
    ∧ Call.explosionsReset ∈ (frame s inp).2.takeWhile (fun c => !startsShadowPass c)
    ∧ (renderFrame s inp).1.restart = false

/-- Key events that arrive while R is pressed: those on which `key_callback`
sets the restart flag. -/
def requestsRestart : Event → Bool
  | .key window _ _ _ _ => decide (window.keys GLFW_KEY_R = GLFW_PRESS)
  | _ => false

/-- The call `text.RenderText` that puts the FPS string on screen (line 344). -/
def isTextRender : Call → Bool
  | .textRenderText _ _ _ _ _ _ => true
  | _ => false

/-- State at the start of frame 21 when every frame so far got `quietInput`. -/
def stateAtFrame21 : State where
  lastX := .div (.lit 1080 0) (.lit 20 1)
  lastY := .div (.lit 700 0) (.lit 20 1)
  firstMouse := true
  deltaTime := .sub (.val 0) (.val 0)
  lastFrame := .val 0
  restart := false
  frameCount := 20
  fps := Str.append (.lit "FPS: ") (.ofInt (.div (.lit 1 0) (.sub (.val 0) (.lit 0 1))))
  windowShouldClose := false

/-! ## Theorems -/

/-- C6: one invocation of `key_callback` issues at most one `manager.playerMove`,
namely the move chosen by the priority Up > Left > Down > Right among the pressed
arrow keys (Up is Forward, Left is Left, Down is Back, Right is Right) and none when
no arrow key is pressed; it issues no other call; the restart flag becomes true
when R is pressed and otherwise keeps its value, so it is never cleared. -/
theorem key_callback_priority (window : Window) (key scancode action mods : Int) (s : State) :
    (key_callback window key scancode action mods s).2
        = (chosenMove window).toList.map Call.managerPlayerMove
      ∧ (movesOf (key_callback window key scancode action mods s).2).length ≤ 1
      ∧ movesOf (key_callback window key scancode action mods s).2 = (chosenMove window).toList
      ∧ ((window.keys GLFW_KEY_UP ≠ GLFW_PRESS ∧ window.keys GLFW_KEY_LEFT ≠ GLFW_PRESS
            ∧ window.keys GLFW_KEY_DOWN ≠ GLFW_PRESS ∧ window.keys GLFW_KEY_RIGHT ≠ GLFW_PRESS) →
          (key_callback window key scancode action mods s).2 = [])
      ∧ (window.keys GLFW_KEY_UP = GLFW_PRESS → chosenMove window = some Direction.Forward)
      ∧ (window.keys GLFW_KEY_UP ≠ GLFW_PRESS → window.keys GLFW_KEY_LEFT = GLFW_PRESS →
          chosenMove window = some Direction.Left)
      ∧ (window.keys GLFW_KEY_UP ≠ GLFW_PRESS → window.keys GLFW_KEY_LEFT ≠ GLFW_PRESS →
          window.keys GLFW_KEY_DOWN = GLFW_PRESS → chosenMove window = some Direction.Back)
      ∧ (window.keys GLFW_KEY_UP ≠ GLFW_PRESS → window.keys GLFW_KEY_LEFT ≠ GLFW_PRESS →
          window.keys GLFW_KEY_DOWN ≠ GLFW_PRESS → window.keys GLFW_KEY_RIGHT = GLFW_PRESS →
          chosenMove window = some Direction.Right)
      ∧ (window.keys GLFW_KEY_R = GLFW_PRESS →
          (key_callback window key scancode action mods s).1.restart = true)
      ∧ (window.keys GLFW_KEY_R ≠ GLFW_PRESS →
          (key_callback window key scancode action mods s).1.restart = s.restart)
      ∧ (s.restart = true → (key_callback window key scancode action mods s).1.restart = true) := by
  by_cases hU : window.keys GLFW_KEY_UP = GLFW_PRESS <;>
  by_cases hL : window.keys GLFW_KEY_LEFT = GLFW_PRESS <;>
  by_cases hD : window.keys GLFW_KEY_DOWN = GLFW_PRESS <;>
  by_cases hR : window.keys GLFW_KEY_RIGHT = GLFW_PRESS <;>
  by_cases hK : window.keys GLFW_KEY_R = GLFW_PRESS <;>
  simp [key_callback, chosenMove, arrowPriority, movesOf, hU, hL, hD, hR, hK]

/-- C1, as stated, fails: with Up held, the key-down of R applies a move
(Forward), and so does a repeat event of Up. -/
theorem key_callback_not_edge_triggered :
    ¬ EdgeTriggered (keyboard [GLFW_KEY_UP, GLFW_KEY_R]) GLFW_KEY_R 27 GLFW_PRESS 0 State.init
      ∧ ¬ EdgeTriggered (keyboard [GLFW_KEY_UP]) GLFW_KEY_UP 111 GLFW_REPEAT 0 State.init
      ∧ movesOf (key_callback (keyboard [GLFW_KEY_UP, GLFW_KEY_R]) GLFW_KEY_R 27 GLFW_PRESS 0
          State.init).2 = [Direction.Forward]
      ∧ movesOf (key_callback (keyboard [GLFW_KEY_UP]) GLFW_KEY_UP 111 GLFW_REPEAT 0
          State.init).2 = [Direction.Forward] := by
  refine ⟨?_, ?_, by decide, by decide⟩
  · intro h
    have h2 := (h (by decide)).2
    revert h2
    decide
  · intro h
    have h1 := (h (by decide)).1
    revert h1
    decide

/-- C1, amended: `key_callback` applies at most one move per key event, and it
applies one exactly when some arrow key is pressed in the keyboard state seen
while the callback runs; the key, scancode, action and modifiers of the event
itself have no influence on what the callback does. -/
theorem key_callback_level_triggered (window : Window) (key scancode action mods : Int)
    (key2 scancode2 action2 mods2 : Int) (s : State) :
    (movesOf (key_callback window key scancode action mods s).2 ≠ [] ↔
        (window.keys GLFW_KEY_UP = GLFW_PRESS ∨ window.keys GLFW_KEY_LEFT = GLFW_PRESS
          ∨ window.keys GLFW_KEY_DOWN = GLFW_PRESS ∨ window.keys GLFW_KEY_RIGHT = GLFW_PRESS))
      ∧ (movesOf (key_callback window key scancode action mods s).2).length ≤ 1
      ∧ key_callback window key scancode action mods s
          = key_callback window key2 scancode2 action2 mods2 s := by
  by_cases hU : window.keys GLFW_KEY_UP = GLFW_PRESS <;>
  by_cases hL : window.keys GLFW_KEY_LEFT = GLFW_PRESS <;>
  by_cases hD : window.keys GLFW_KEY_DOWN = GLFW_PRESS <;>
  by_cases hR : window.keys GLFW_KEY_RIGHT = GLFW_PRESS <;>
  simp [key_callback, movesOf, hU, hL, hD, hR]

/-! ### Auxiliary facts about the calls of a frame -/

theorem key_callback_calls (window : Window) (key scancode action mods : Int) (s : State) :
    (key_callback window key scancode action mods s).2
      = (chosenMove window).toList.map Call.managerPlayerMove := by
  by_cases hU : window.keys GLFW_KEY_UP = GLFW_PRESS <;>
  by_cases hL : window.keys GLFW_KEY_LEFT = GLFW_PRESS <;>
  by_cases hD : window.keys GLFW_KEY_DOWN = GLFW_PRESS <;>
  by_cases hR : window.keys GLFW_KEY_RIGHT = GLFW_PRESS <;>
  simp [key_callback, chosenMove, arrowPriority, hU, hL, hD, hR]

theorem processInput_housekeeping (window : Window) (s : State) :
    ∀ c ∈ (processInput window s).2, isHousekeeping c = true := by
  intro c hc
  simp only [processInput, List.mem_append] at hc
  rcases hc with (((((hc | hc) | hc) | hc) | hc) | hc) | hc <;>
  · split at hc
    · rw [List.mem_singleton] at hc
      subst hc
      rfl
    · cases hc

theorem dispatch_housekeeping (e : Event) (s : State) :
    ∀ c ∈ (dispatch e s).2, isHousekeeping c = true := by
  intro c hc
  cases e with
  | key window key scancode action mods =>
    simp only [dispatch, key_callback_calls] at hc
    rcases List.mem_map.1 hc with ⟨d, _, rfl⟩
    rfl
  | cursorPos xpos ypos =>
    simp only [dispatch, mouse_callback, List.mem_singleton] at hc
    subst hc
    rfl
  | framebufferSize width height =>
    simp only [dispatch, framebuffer_size_callback, List.mem_singleton] at hc
    subst hc
    rfl
  | close => simp [dispatch] at hc

theorem glfwPollEvents_housekeeping (es : List Event) :
    ∀ (s : State), ∀ c ∈ (glfwPollEvents es s).2, isHousekeeping c = true := by
  induction es with
  | nil => intro s c hc; simp [glfwPollEvents] at hc
  | cons e es ih =>
    intro s c hc
    simp only [glfwPollEvents, List.mem_append] at hc
    rcases hc with hc | hc
    · exact dispatch_housekeeping e s c hc
    · exact ih _ c hc

theorem restartBlock_calls (s : State) :
    (restartBlock s).2
      = if s.restart then [Call.managerResetObjsPos, Call.explosionsReset] else [] := by
  unfold restartBlock
  split <;> rfl

theorem restartBlock_restart (s : State) : (restartBlock s).1.restart = false := by
  unfold restartBlock
  split
  · rfl
  · simpa using ‹¬ s.restart = true›

theorem frame_calls (s : State) (inp : FrameInput) :
    (frame s inp).2
      = (processInput inp.window
            { s with deltaTime := Flt.sub inp.currentFrame s.lastFrame,
                     lastFrame := inp.currentFrame }).2
          ++ (coreCalls s inp ++ (glfwPollEvents inp.events (renderFrame s inp).1).2) := by
  simp only [frame, renderFrame, coreCalls, restartBlock_calls, processInput,
    List.append_assoc]

theorem filter_eq_nil_of_housekeeping (p : Call → Bool)
    (hp : ∀ c, isHousekeeping c = true → p c = false) (l : List Call)
    (hl : ∀ c ∈ l, isHousekeeping c = true) : l.filter p = [] := by
  rw [List.filter_eq_nil_iff]
  intro c hc
  simp [hp c (hl c hc)]

/-- For a predicate that holds of no housekeeping call, filtering the calls of a
frame is filtering its core. -/
theorem filter_frame (p : Call → Bool) (hp : ∀ c, isHousekeeping c = true → p c = false)
    (s : State) (inp : FrameInput) :
    (frame s inp).2.filter p = (coreCalls s inp).filter p := by
  rw [frame_calls, List.filter_append, List.filter_append,
    filter_eq_nil_of_housekeeping p hp _ (processInput_housekeeping _ _),
    filter_eq_nil_of_housekeeping p hp _ (glfwPollEvents_housekeeping _ _)]
  simp

theorem precedes_of_split (p q : Call → Bool) (xs ys : List Call)
    (hx : ∀ c ∈ xs, q c = false) (hy : ∀ c ∈ ys, p c = false) :
    Precedes p q (xs ++ ys) := by
  intro i j a b hi hj hpa hqb
  have hilt : i < xs.length := by
    by_contra hge
    rw [List.getElem?_append_right (Nat.le_of_not_lt hge)] at hi
    have := hy a (List.getElem?_mem hi)
    simp [hpa] at this
  have hjge : xs.length ≤ j := by
    by_contra hlt
    rw [List.getElem?_append_left (Nat.lt_of_not_le hlt)] at hj
    have := hx b (List.getElem?_mem hj)
    simp [hqb] at this
  omega

theorem filterMap_frame {β : Type} (f : Call → Option β)
    (hf : ∀ c, isHousekeeping c = true → f c = none) (s : State) (inp : FrameInput) :
    (frame s inp).2.filterMap f = (coreCalls s inp).filterMap f := by
  have hnil : ∀ l : List Call, (∀ c ∈ l, isHousekeeping c = true) → l.filterMap f = [] := by
    intro l hl
    rw [List.filterMap_eq_nil_iff]
    intro c hc
    exact hf c (hl c hc)
  rw [frame_calls, List.filterMap_append, List.filterMap_append,
    hnil _ (processInput_housekeeping _ _), hnil _ (glfwPollEvents_housekeeping _ _)]
  simp

/-- Order of calls in a frame, read off its core: when no `p`-call follows the
first `q`-call of the core, every `p`-call of the frame precedes every `q`-call. -/
theorem precedes_frame (p q : Call → Bool)
    (hp : ∀ c, isHousekeeping c = true → p c = false)
    (hq : ∀ c, isHousekeeping c = true → q c = false) (s : State) (inp : FrameInput)
    (h : ((coreCalls s inp).dropWhile fun c => !q c).all (fun c => !p c) = true) :
    Precedes p q (frame s inp).2 := by
  have hsplit : (frame s inp).2
      = ((processInput inp.window
            { s with deltaTime := Flt.sub inp.currentFrame s.lastFrame,
                     lastFrame := inp.currentFrame }).2
          ++ (coreCalls s inp).takeWhile fun c => !q c)
        ++ (((coreCalls s inp).dropWhile fun c => !q c)
          ++ (glfwPollEvents inp.events (renderFrame s inp).1).2) := by
    rw [frame_calls, List.append_assoc, ← List.append_assoc (List.takeWhile _ _),
      List.takeWhile_append_dropWhile]
  rw [hsplit]
  apply precedes_of_split
  · intro c hc
    rcases List.mem_append.1 hc with hc | hc
    · exact hq c (processInput_housekeeping _ _ c hc)
    · simpa using List.mem_takeWhile_imp hc
  · intro c hc
    rcases List.mem_append.1 hc with hc | hc
    · simpa using (List.all_eq_true.1 h) c hc
    · exact hp c (glfwPollEvents_housekeeping _ _ c hc)

/-- The callbacks leave `frameCount` and the FPS string alone. -/
theorem glfwPollEvents_frameCount_fps (es : List Event) :
    ∀ s : State, (glfwPollEvents es s).1.frameCount = s.frameCount
      ∧ (glfwPollEvents es s).1.fps = s.fps := by
  induction es with
  | nil => intro s; exact ⟨rfl, rfl⟩
  | cons e es ih =>
    intro s
    have hd : (dispatch e s).1.frameCount = s.frameCount ∧ (dispatch e s).1.fps = s.fps := by
      cases e with
      | key window key scancode action mods =>
        simp only [dispatch, key_callback]
        split_ifs <;> exact ⟨rfl, rfl⟩
      | cursorPos xpos ypos =>
        simp only [dispatch, mouse_callback]
        split_ifs <;> exact ⟨rfl, rfl⟩
      | framebufferSize width height => exact ⟨rfl, rfl⟩
      | close => exact ⟨rfl, rfl⟩
    simp only [glfwPollEvents]
    rw [(ih _).1, (ih _).2]
    exact hd

/-! ### The frame loop -/

/-- C3: in every frame the `lightSpaceMatrix` uniform is set exactly twice, first
on the depth shader and then on the scene shader, both times to the same matrix
`ortho(-10,10,-10,10,1,15) * lookAt((-2,7,2),(0,0,0),(0,1,0))`, whatever the
state, the camera, the input, the puzzle state and the time. -/
theorem light_space_matrix_shared (s : State) (inp : FrameInput) :
    lightSpaceUniforms (frame s inp).2
      = [ (ShaderId.depthShader,
            Mat4.mul
              (Mat4.ortho (.lit (-100) 1) (.lit 100 1) (.lit (-100) 1) (.lit 100 1) (.lit 10 1)
                (.lit 150 1))
              (Mat4.lookAt ⟨.lit (-20) 1, .lit 70 1, .lit 20 1⟩
                ⟨.lit 0 1, .lit 0 1, .lit 0 1⟩ ⟨.lit 0 1, .lit 10 1, .lit 0 1⟩)),
          (ShaderId.shader,
            Mat4.mul
              (Mat4.ortho (.lit (-100) 1) (.lit 100 1) (.lit (-100) 1) (.lit 100 1) (.lit 10 1)
                (.lit 150 1))
              (Mat4.lookAt ⟨.lit (-20) 1, .lit 70 1, .lit 20 1⟩
                ⟨.lit 0 1, .lit 0 1, .lit 0 1⟩ ⟨.lit 0 1, .lit 10 1, .lit 0 1⟩)) ] := by
  unfold lightSpaceUniforms
  rw [filterMap_frame _ (by intro c hc; cases c <;> first | rfl | simp [isHousekeeping] at hc)]
  obtain ⟨lastX, lastY, firstMouse, deltaTime, lastFrame, restart, frameCount, fps, closing⟩ := s
  obtain ⟨currentFrame, window, isGameOver, viewMatrix, cameraPosition, playerPosition,
    events⟩ := inp
  cases restart <;> cases isGameOver <;> rfl

/-- C4: in every frame the framebuffer binds and depth-shader draws are, in order:
bind `depthMapFBO`, then ground, dirt, wall, box, goal tiles and the player, each
drawn once with the depth shader, then bind the window framebuffer; and every
depth-shader draw comes before every draw made with another shader. -/
theorem depth_pass_before_color_pass (s : State) (inp : FrameInput) :
    (frame s inp).2.filter isDepthDrawOrBind
        = [ Call.glBindFramebuffer .depthMapFBO,
            Call.renderObjects .ground .depthShader (some false),
            Call.renderObjects .dirt .depthShader (some false),
            Call.renderObjects .wall .depthShader (some false),
            Call.renderObjects .box .depthShader (some false),
            Call.renderObjects .endTiles .depthShader (some false),
            Call.playerRender .depthShader ⟨.lit (-20) 1, .lit 70 1, .lit 20 1⟩ (some false),
            Call.glBindFramebuffer .window ]
      ∧ Precedes isDepthDraw isColorDraw (frame s inp).2 := by
  refine ⟨?_, ?_⟩
  · rw [filter_frame _ (by intro c hc; cases c <;> first | rfl | simp [isHousekeeping] at hc)]
    obtain ⟨lastX, lastY, firstMouse, deltaTime, lastFrame, restart, frameCount, fps, closing⟩ := s
    obtain ⟨currentFrame, window, isGameOver, viewMatrix, cameraPosition, playerPosition,
      events⟩ := inp
    cases restart <;> cases isGameOver <;> rfl
  · apply precedes_frame
    · intro c hc; cases c <;> first | rfl | simp [isHousekeeping] at hc
    · intro c hc; cases c <;> first | rfl | simp [isHousekeeping] at hc
    · obtain ⟨lastX, lastY, firstMouse, deltaTime, lastFrame, restart, frameCount, fps,
        closing⟩ := s
      obtain ⟨currentFrame, window, isGameOver, viewMatrix, cameraPosition, playerPosition,
        events⟩ := inp
      cases restart <;> cases isGameOver <;> rfl

/-- C5: in every frame the updates and draws of the particle and explosion
simulators are, when `manager.isGameOver()` is true, exactly: one particle update,
four particle draws at (-2.5,0,-0.5), (-2.5,0,-1.5), (-2.5,0,-2.5) and the player's
position, one explosion update, three explosion draws at the same three fixed
origins; when it is false there is none. -/
theorem win_overlay_iff_game_over (s : State) (inp : FrameInput) :
    (frame s inp).2.filter isEffectCall
      = if inp.isGameOver then
          [ Call.particlesUpdate (.lit 5 2) 500,
            Call.particlesDraw (Flt.sub inp.currentFrame s.lastFrame) .particleShader
              ⟨.lit (-25) 1, .lit 0 1, .lit (-5) 1⟩,
            Call.particlesDraw (Flt.sub inp.currentFrame s.lastFrame) .particleShader
              ⟨.lit (-25) 1, .lit 0 1, .lit (-15) 1⟩,
            Call.particlesDraw (Flt.sub inp.currentFrame s.lastFrame) .particleShader
              ⟨.lit (-25) 1, .lit 0 1, .lit (-25) 1⟩,
            Call.particlesDraw (Flt.sub inp.currentFrame s.lastFrame) .particleShader
              inp.playerPosition,
            Call.explosionsUpdate (Flt.sub inp.currentFrame s.lastFrame) 1,
            Call.explosionsDraw ⟨.lit (-25) 1, .lit 0 1, .lit (-5) 1⟩,
            Call.explosionsDraw ⟨.lit (-25) 1, .lit 0 1, .lit (-15) 1⟩,
            Call.explosionsDraw ⟨.lit (-25) 1, .lit 0 1, .lit (-25) 1⟩ ]
        else [] := by
  rw [filter_frame _ (by intro c hc; cases c <;> first | rfl | simp [isHousekeeping] at hc)]
  obtain ⟨lastX, lastY, firstMouse, deltaTime, lastFrame, restart, frameCount, fps, closing⟩ := s
  obtain ⟨currentFrame, window, isGameOver, viewMatrix, cameraPosition, playerPosition,
    events⟩ := inp
  cases restart <;> cases isGameOver <;> rfl

/-- C8, as stated, fails: in the first frame (nothing pressed, game not over) the
goal tiles, a static terrain group, are drawn after the movable boxes. -/
theorem goal_tiles_drawn_after_boxes :
    ¬ (Precedes isStaticTerrainDraw isBoxDraw (frame State.init quietInput).2
        ∧ Precedes isBoxDraw isPlayerDraw (frame State.init quietInput).2) := by
  intro h
  have h1 := h.1 28 27 (Call.renderObjects .endTiles .shader none)
    (Call.renderObjects .box .shader none) (by decide) (by decide) rfl rfl
  omega

/-- C8, amended: in every frame the draws made with the scene shader or the player
shader are, in order, ground, dirt, wall, boxes, goal tiles (scene shader) and
then the player (player shader): ground, dirt and wall precede the boxes, the
boxes precede the goal tiles, and the goal tiles precede the player. -/
theorem color_pass_order (s : State) (inp : FrameInput) :
    (frame s inp).2.filter isSceneOrPlayerDraw
        = [ Call.renderObjects .ground .shader none,
            Call.renderObjects .dirt .shader none,
            Call.renderObjects .wall .shader none,
            Call.renderObjects .box .shader none,
            Call.renderObjects .endTiles .shader none,
            Call.playerRender .playerShader ⟨.lit (-20) 1, .lit 70 1, .lit 20 1⟩ none ]
      ∧ Precedes isGroundDirtWallDraw isBoxDraw (frame s inp).2
      ∧ Precedes isBoxDraw isGoalDraw (frame s inp).2
      ∧ Precedes isGoalDraw isPlayerDraw (frame s inp).2 := by
  obtain ⟨lastX, lastY, firstMouse, deltaTime, lastFrame, restart, frameCount, fps, closing⟩ := s
  obtain ⟨currentFrame, window, isGameOver, viewMatrix, cameraPosition, playerPosition,
    events⟩ := inp
  refine ⟨?_, ?_, ?_, ?_⟩
  · rw [filter_frame _ (by intro c hc; cases c <;> first | rfl | simp [isHousekeeping] at hc)]
    cases restart <;> cases isGameOver <;> rfl
  all_goals
    apply precedes_frame
    · intro c hc; cases c <;> first | rfl | simp [isHousekeeping] at hc
    · intro c hc; cases c <;> first | rfl | simp [isHousekeeping] at hc
    · cases restart <;> cases isGameOver <;> rfl

theorem glfwPollEvents_restart (es : List Event) :
    ∀ s : State, (glfwPollEvents es s).1.restart = (s.restart || es.any requestsRestart) := by
  induction es with
  | nil => intro s; simp [glfwPollEvents]
  | cons e es ih =>
    intro s
    have hd : (dispatch e s).1.restart = (s.restart || requestsRestart e) := by
      cases e with
      | key window key scancode action mods =>
        by_cases hK : window.keys GLFW_KEY_R = GLFW_PRESS <;>
        by_cases hU : window.keys GLFW_KEY_UP = GLFW_PRESS <;>
        by_cases hL : window.keys GLFW_KEY_LEFT = GLFW_PRESS <;>
        by_cases hD : window.keys GLFW_KEY_DOWN = GLFW_PRESS <;>
        by_cases hR : window.keys GLFW_KEY_RIGHT = GLFW_PRESS <;>
        simp [dispatch, key_callback, requestsRestart, hK, hU, hL, hD, hR]
      | cursorPos xpos ypos =>
        simp only [dispatch, mouse_callback, requestsRestart]
        split_ifs <;> simp
      | framebufferSize width height => simp [dispatch, requestsRestart]
      | close => simp [dispatch, requestsRestart]
    simp only [glfwPollEvents, List.any_cons]
    rw [ih, hd, Bool.or_assoc]

theorem renderFrame_restart (s : State) (inp : FrameInput) :
    (renderFrame s inp).1.restart = false := by
  simp only [renderFrame, updateFps]
  split_ifs <;> exact restartBlock_restart _

/-- C2, as stated, fails: a frame that starts with the restart flag set makes no
call at all on the particle simulator before the shadow pass (none in the whole
frame when the game is not over), so the particle simulator is not reset. -/
theorem restart_does_not_reset_particles :
    ¬ ResetsAllSimulators restartRequested quietInput
      ∧ ¬ ResetsAllSimulators restartRequested wonInput
      ∧ (frame restartRequested quietInput).2.filter touchesParticles = [] := by
  refine ⟨?_, ?_, by decide⟩
  · rintro ⟨-, ⟨c, hc, hp⟩, -⟩
    have hall : ((frame restartRequested quietInput).2.takeWhile
        (fun c => !startsShadowPass c)).all (fun c => !touchesParticles c) = true := by decide
    have := List.all_eq_true.1 hall c hc
    simp [hp] at this
  · rintro ⟨-, ⟨c, hc, hp⟩, -⟩
    have hall : ((frame restartRequested wonInput).2.takeWhile
        (fun c => !startsShadowPass c)).all (fun c => !touchesParticles c) = true := by decide
    have := List.all_eq_true.1 hall c hc
    simp [hp] at this

/-- C2, amended: a frame that begins with the restart flag set resets the puzzle
manager (`resetObjsPos`) and the explosion simulator, in this order and before the
shadow pass begins; a frame that begins with the flag clear issues neither reset.
No call on the particle simulator precedes the shadow pass.  In both cases the
flag is false when the frame has been rendered, and at the end of the iteration
it is set exactly when `glfwPollEvents` delivered a key event with R pressed. -/
theorem restart_block_resets (s : State) (inp : FrameInput) :
    (frame s inp).2.filter isReset
        = (if s.restart then [Call.managerResetObjsPos, Call.explosionsReset] else [])
      ∧ Precedes isReset startsShadowPass (frame s inp).2
      ∧ (frame s inp).2.filter startsShadowPass = [Call.shaderUse .depthShader]
      ∧ Precedes startsShadowPass touchesParticles (frame s inp).2
      ∧ (renderFrame s inp).1.restart = false
      ∧ (frame s inp).1.restart = inp.events.any requestsRestart := by
  refine ⟨?_, ?_, ?_, ?_, renderFrame_restart s inp, ?_⟩
  · rw [filter_frame _ (by intro c hc; cases c <;> first | rfl | simp [isHousekeeping] at hc)]
    obtain ⟨lastX, lastY, firstMouse, deltaTime, lastFrame, restart, frameCount, fps, closing⟩ := s
    obtain ⟨currentFrame, window, isGameOver, viewMatrix, cameraPosition, playerPosition,
      events⟩ := inp
    cases restart <;> cases isGameOver <;> rfl
  · apply precedes_frame
    · intro c hc; cases c <;> first | rfl | simp [isHousekeeping] at hc
    · intro c hc; cases c <;> first | rfl | simp [isHousekeeping] at hc
    · obtain ⟨lastX, lastY, firstMouse, deltaTime, lastFrame, restart, frameCount, fps,
        closing⟩ := s
      obtain ⟨currentFrame, window, isGameOver, viewMatrix, cameraPosition, playerPosition,
        events⟩ := inp
      cases restart <;> cases isGameOver <;> rfl
  · rw [filter_frame _ (by intro c hc; cases c <;> first | rfl | simp [isHousekeeping] at hc)]
    obtain ⟨lastX, lastY, firstMouse, deltaTime, lastFrame, restart, frameCount, fps, closing⟩ := s
    obtain ⟨currentFrame, window, isGameOver, viewMatrix, cameraPosition, playerPosition,
      events⟩ := inp
    cases restart <;> cases isGameOver <;> rfl
  · apply precedes_frame
    · intro c hc; cases c <;> first | rfl | simp [isHousekeeping] at hc
    · intro c hc; cases c <;> first | rfl | simp [isHousekeeping] at hc
    · obtain ⟨lastX, lastY, firstMouse, deltaTime, lastFrame, restart, frameCount, fps,
        closing⟩ := s
      obtain ⟨currentFrame, window, isGameOver, viewMatrix, cameraPosition, playerPosition,
        events⟩ := inp
      cases restart <;> cases isGameOver <;> rfl
  · simp only [frame]
    rw [glfwPollEvents_restart, renderFrame_restart]
    simp

/-! ### The FPS counter -/

theorem renderFrame_frameCount_fps (s : State) (inp : FrameInput) :
    (renderFrame s inp).1.frameCount = (if s.frameCount = 20 then 0 else s.frameCount + 1)
      ∧ (renderFrame s inp).1.fps
          = (if s.frameCount = 20 then
              Str.append (.lit "FPS: ")
                (.ofInt (.div (.lit 1 0) (Flt.sub inp.currentFrame s.lastFrame)))
             else s.fps) := by
  have h1 : ∀ t : State, (restartBlock t).1.frameCount = t.frameCount
      ∧ (restartBlock t).1.fps = t.fps ∧ (restartBlock t).1.deltaTime = t.deltaTime := by
    intro t
    unfold restartBlock
    split <;> exact ⟨rfl, rfl, rfl⟩
  simp only [renderFrame, updateFps, (h1 _).1, processInput]
  split_ifs <;> simp [(h1 _).1, (h1 _).2.1, (h1 _).2.2]

theorem frame_frameCount_fps (s : State) (inp : FrameInput) :
    (frame s inp).1.frameCount = (if s.frameCount = 20 then 0 else s.frameCount + 1)
      ∧ (frame s inp).1.fps
          = (if s.frameCount = 20 then
              Str.append (.lit "FPS: ")
                (.ofInt (.div (.lit 1 0) (Flt.sub inp.currentFrame s.lastFrame)))
             else s.fps) := by
  simp only [frame]
  rw [(glfwPollEvents_frameCount_fps _ _).1, (glfwPollEvents_frameCount_fps _ _).2]
  exact renderFrame_frameCount_fps s inp

/-- The counter at the start of the `n`-th executed frame, for a loop entered with
`frameCount = k ≤ 20`. -/
theorem frameAt_frameCount (n : Nat) :
    ∀ (inputs : List FrameInput) (s0 : State) (k : Nat) (s : State) (inp : FrameInput),
      s0.frameCount = (k : Int) → k ≤ 20 → frameAt n inputs s0 = some (s, inp) →
      s.frameCount = (((k + n) % 21 : Nat) : Int) := by
  induction n with
  | zero =>
    intro inputs s0 k s inp hk hle h
    cases inputs with
    | nil => simp [frameAt] at h
    | cons i rest =>
      simp only [frameAt] at h
      split_ifs at h
      simp only [Option.some.injEq, Prod.mk.injEq] at h
      rw [← h.1, hk]
      congr 1
      omega
  | succ n ih =>
    intro inputs s0 k s inp hk hle h
    cases inputs with
    | nil => simp [frameAt] at h
    | cons i rest =>
      simp only [frameAt] at h
      split_ifs at h
      by_cases h20 : k = 20
      · have hc : (frame s0 i).1.frameCount = ((0 : Nat) : Int) := by
          rw [(frame_frameCount_fps s0 i).1, hk, h20]; simp
        rw [ih rest _ 0 s inp hc (by omega) h]
        congr 1
        omega
      · have hc : (frame s0 i).1.frameCount = ((k + 1 : Nat) : Int) := by
          rw [(frame_frameCount_fps s0 i).1, hk]
          have : ¬ ((k : Int) = 20) := by omega
          simp [this]
        rw [ih rest _ (k + 1) s inp hc (by omega) h]
        congr 1
        omega

/-- The frame `frameAt` reports is one the loop runs: its calls are a segment of
the calls of `mainLoop`. -/
theorem frameAt_executed (n : Nat) :
    ∀ (inputs : List FrameInput) (s0 s : State) (inp : FrameInput),
      frameAt n inputs s0 = some (s, inp) →
      ∃ before after : List Call, (mainLoop inputs s0).2 = before ++ (frame s inp).2 ++ after := by
  induction n with
  | zero =>
    intro inputs s0 s inp h
    cases inputs with
    | nil => simp [frameAt] at h
    | cons i rest =>
      simp only [frameAt] at h
      split_ifs at h with hclose
      simp only [Option.some.injEq, Prod.mk.injEq] at h
      obtain ⟨rfl, rfl⟩ := h
      exact ⟨[], (mainLoop rest (frame s0 i).1).2, by simp [mainLoop, hclose]⟩
  | succ n ih =>
    intro inputs s0 s inp h
    cases inputs with
    | nil => simp [frameAt] at h
    | cons i rest =>
      simp only [frameAt] at h
      split_ifs at h with hclose
      obtain ⟨before, after, hrest⟩ := ih rest _ s inp h
      exact ⟨(frame s0 i).2 ++ before, after, by simp [mainLoop, hclose, hrest]⟩

/-- C7: let `s` be the state at the start of the `n`-th frame the loop executes
(frames numbered from 0, loop entered in the initial state with `frameCount = 20`).
Then `0 ≤ frameCount ≤ 20`; the test `frameCount == 20` succeeds exactly when
`n mod 21 = 0`; on those frames the FPS string becomes
`"FPS: " + to_string((int)(1 / deltaTime))` for the `deltaTime` of the frame, on all
other frames it keeps its value; and the string put on screen in the frame is the
string after this step. -/
theorem fps_cadence (inputs : List FrameInput) (n : Nat) (s : State) (inp : FrameInput)
    (h : frameAt n inputs State.init = some (s, inp)) :
    0 ≤ s.frameCount ∧ s.frameCount ≤ 20
      ∧ (s.frameCount = 20 ↔ n % 21 = 0)
      ∧ (n % 21 = 0 →
          (frame s inp).1.fps
            = Str.append (.lit "FPS: ")
                (.ofInt (.div (.lit 1 0) (Flt.sub inp.currentFrame s.lastFrame))))
      ∧ (n % 21 ≠ 0 → (frame s inp).1.fps = s.fps)
      ∧ (frame s inp).2.filter isTextRender
          = [ Call.textRenderText .textShader (frame s inp).1.fps (.lit 250 1) (.lit 250 1)
                (.lit 7 1) ⟨.lit 5 1, .lit 8 1, .lit 2 1⟩ ] := by
  have hc := frameAt_frameCount n inputs State.init 20 s inp rfl (by omega) h
  have hiff : s.frameCount = 20 ↔ n % 21 = 0 := by
    rw [hc]
    constructor
    · intro h20
      have : (20 + n) % 21 = 20 := by exact_mod_cast h20
      omega
    · intro h0
      have : (20 + n) % 21 = 20 := by omega
      exact_mod_cast this
  refine ⟨by rw [hc]; positivity, ?_, hiff, ?_, ?_, ?_⟩
  · rw [hc]
    have : (20 + n) % 21 ≤ 20 := by omega
    exact_mod_cast this
  · intro h0
    rw [(frame_frameCount_fps s inp).2, if_pos (hiff.2 h0)]
  · intro h0
    rw [(frame_frameCount_fps s inp).2, if_neg (fun h20 => h0 (hiff.1 h20))]
  · rw [filter_frame _ (by intro c hc; cases c <;> first | rfl | simp [isHousekeeping] at hc)]
    have hfps : (frame s inp).1.fps = (renderFrame s inp).1.fps := by
      simp only [frame]
      exact (glfwPollEvents_frameCount_fps _ _).2
    rw [hfps]
    simp only [coreCalls]
    generalize (renderFrame s inp).1.fps = text
    obtain ⟨lastX, lastY, firstMouse, deltaTime, lastFrame, restart, frameCount, fps,
      closing⟩ := s
    obtain ⟨currentFrame, window, isGameOver, viewMatrix, cameraPosition, playerPosition,
      events⟩ := inp
    cases restart <;> cases isGameOver <;> rfl

/-- Witness for C7: with 22 quiet frames, frame 21 exists, starts with
`frameCount = 20` and recomputes the FPS string from its own `deltaTime`. -/
theorem fps_cadence_witness :
    frameAt 21 (List.replicate 22 quietInput) State.init = some (stateAtFrame21, quietInput)
      ∧ stateAtFrame21.frameCount = 20
      ∧ (frame stateAtFrame21 quietInput).1.fps
          = Str.append (.lit "FPS: ") (.ofInt (.div (.lit 1 0) (.sub (.val 0) (.val 0)))) :=
  ⟨rfl,
   (fps_cadence (List.replicate 22 quietInput) 21 stateAtFrame21 quietInput rfl).2.2.1.2
     (by decide),
   (fps_cadence (List.replicate 22 quietInput) 21 stateAtFrame21 quietInput rfl).2.2.2.1
     (by decide)⟩

/-! ### `Mesh::Draw` -/

theorem textureBindings_append (xs ys : List Call) :
    ∀ a : Nat, textureBindings a (xs ++ ys)
      = textureBindings a xs ++ textureBindings (activeUnit a xs) ys := by
  induction xs with
  | nil => intro a; rfl
  | cons c cs ih =>
    intro a
    cases c <;> simp [textureBindings, activeUnit, ih]

theorem take_succ_eq (ts : List Texture) (k : Nat) (hk : k < ts.length) :
    ts.take (k + 1) = ts.take k ++ [ts[k]] := by
  rw [List.take_succ, List.getElem?_eq_getElem hk]
  rfl

theorem enum_take_succ (ts : List Texture) (k : Nat) (hk : k < ts.length) :
    (ts.take (k + 1)).enum = (ts.take k).enum ++ [(k, ts[k])] := by
  rw [take_succ_eq ts k hk, List.enum_eq_enumFrom, List.enumFrom_append]
  simp [List.length_take, Nat.min_eq_left (Nat.le_of_lt hk), List.enum_eq_enumFrom]

theorem countP_take_succ (ts : List Texture) (p : Texture → Bool) (k : Nat)
    (hk : k < ts.length) :
    (ts.take (k + 1)).countP p = (ts.take k).countP p + if p ts[k] then 1 else 0 := by
  rw [take_succ_eq ts k hk, List.countP_append, List.countP_singleton]

theorem countP_take_le (ts : List Texture) (p : Texture → Bool) (k : Nat) :
    (ts.take k).countP p ≤ k :=
  Nat.le_trans (List.countP_le_length p) (List.length_take_le k ts)

/-- One iteration of the texture loop keeps the invariant. -/
theorem loopInv_step (ts : List Texture) (shader : ShaderId) (a0 k : Nat)
    (d sp no he : Nat) (calls : List Call) (hn : ts.length < 2 ^ 31) (hk : k < ts.length)
    (hinv : LoopInv ts a0 k
      { i := k, diffuseNr := d, specularNr := sp, normalNr := no, heightNr := he,
        calls := calls }) :
    LoopInv ts a0 (k + 1)
      { (numberFor ts[k].type
            { i := k, diffuseNr := d, specularNr := sp, normalNr := no, heightNr := he,
              calls := calls }).2 with
        i := u32 (k + 1)
        calls := calls ++
          [ Call.glActiveTexture (u32 (GL_TEXTURE0 + k)),
            Call.setVec3 shader "mColor" sentinelColor,
            Call.glUniform1i shader
              (ts[k].type ++ (numberFor ts[k].type
                { i := k, diffuseNr := d, specularNr := sp, normalNr := no, heightNr := he,
                  calls := calls }).1)
              (toInt32 k),
            Call.glBindTexture ts[k].id ] } := by
  obtain ⟨-, -, hd, hsp, hno, hhe, hb, hu, hs⟩ := hinv
  simp only at hd hsp hno hhe hb hu hs
  have hle := fun p => countP_take_le ts p k
  have hu32 : ∀ x, x ≤ k + 2 → u32 x = x := by
    intro x hx
    unfold u32
    exact Nat.mod_eq_of_lt (by omega)
  have hunit : u32 (GL_TEXTURE0 + k) = GL_TEXTURE0 + k := by
    unfold u32 GL_TEXTURE0
    exact Nat.mod_eq_of_lt (by omega)
  have hint : toInt32 k = (k : Int) := by
    unfold toInt32
    have h1 : k % 2 ^ 32 = k := Nat.mod_eq_of_lt (by omega)
    rw [h1, if_pos (by omega)]
  have hbind : textureBindings a0 (calls ++
      [ Call.glActiveTexture (u32 (GL_TEXTURE0 + k)),
        Call.setVec3 shader "mColor" sentinelColor,
        Call.glUniform1i shader
          (ts[k].type ++ (numberFor ts[k].type
            { i := k, diffuseNr := d, specularNr := sp, normalNr := no, heightNr := he,
              calls := calls }).1)
          (toInt32 k),
        Call.glBindTexture ts[k].id ])
      = (ts.take (k + 1)).enum.map (fun p => (GL_TEXTURE0 + p.1, p.2.id)) := by
    rw [textureBindings_append, hb, enum_take_succ ts k hk, List.map_append, hunit]
    rfl
  have hcnt := fun p => countP_take_succ ts p k hk
  have hnum : ts[k].type ++ (numberFor ts[k].type
        { i := k, diffuseNr := d, specularNr := sp, normalNr := no, heightNr := he,
          calls := calls }).1 = samplerName ts k ts[k]
      ∧ (numberFor ts[k].type
          { i := k, diffuseNr := d, specularNr := sp, normalNr := no, heightNr := he,
            calls := calls }).2.diffuseNr
          = 1 + (ts.take (k + 1)).countP (fun e => e.type = "texture_diffuse")
      ∧ (numberFor ts[k].type
          { i := k, diffuseNr := d, specularNr := sp, normalNr := no, heightNr := he,
            calls := calls }).2.specularNr
          = 1 + (ts.take (k + 1)).countP (fun e => e.type = "texture_specular")
      ∧ (numberFor ts[k].type
          { i := k, diffuseNr := d, specularNr := sp, normalNr := no, heightNr := he,
            calls := calls }).2.normalNr
          = 1 + (ts.take (k + 1)).countP (fun e => e.type = "texture_normal")
      ∧ (numberFor ts[k].type
          { i := k, diffuseNr := d, specularNr := sp, normalNr := no, heightNr := he,
            calls := calls }).2.heightNr
          = 1 + (ts.take (k + 1)).countP (fun e => e.type = "texture_height") := by
    rw [hcnt, hcnt, hcnt, hcnt]
    generalize ts[k] = t
    have hled := hle (fun e => e.type = "texture_diffuse")
    have hles := hle (fun e => e.type = "texture_specular")
    have hlen := hle (fun e => e.type = "texture_normal")
    have hleh := hle (fun e => e.type = "texture_height")
    subst hd hsp hno hhe
    have e1 := hu32 _ (show 1 + (ts.take k).countP (fun e => e.type = "texture_diffuse") + 1
      ≤ k + 2 by omega)
    have e2 := hu32 _ (show 1 + (ts.take k).countP (fun e => e.type = "texture_specular") + 1
      ≤ k + 2 by omega)
    have e3 := hu32 _ (show 1 + (ts.take k).countP (fun e => e.type = "texture_normal") + 1
      ≤ k + 2 by omega)
    have e4 := hu32 _ (show 1 + (ts.take k).countP (fun e => e.type = "texture_height") + 1
      ≤ k + 2 by omega)
    by_cases h1 : t.type = "texture_diffuse"
    · simp [numberFor, samplerName, numberedTypes, h1, e1]
      omega
    by_cases h2 : t.type = "texture_specular"
    · simp [numberFor, samplerName, numberedTypes, h2, e2]
      omega
    by_cases h3 : t.type = "texture_normal"
    · simp [numberFor, samplerName, numberedTypes, h3, e3]
      omega
    by_cases h4 : t.type = "texture_height"
    · simp [numberFor, samplerName, numberedTypes, h4, e4]
      omega
    · simp [numberFor, samplerName, numberedTypes, h1, h2, h3, h4]
  refine ⟨hu32 (k + 1) (by omega), by omega, hnum.2.1, hnum.2.2.1, hnum.2.2.2.1, hnum.2.2.2.2,
    hbind, ?_, ?_⟩
  · show samplerUniforms (calls ++ _) = _
    rw [hnum.1, hint, enum_take_succ ts k hk, List.map_append, ← hu]
    simp [samplerUniforms, samplerUniform?]
  · show setIntCalls (calls ++ _) = _
    unfold setIntCalls at hs ⊢
    rw [List.filterMap_append, hs]
    rfl

/-- With more fuel than iterations left, the texture loop ends, and the invariant
holds at its exit for all the textures. -/
theorem textureLoop_spec (ts : List Texture) (shader : ShaderId) (a0 : Nat)
    (hn : ts.length < 2 ^ 31) :
    ∀ (fuel k : Nat) (st : DrawLocals), LoopInv ts a0 k st → ts.length - k < fuel →
      ∃ st', textureLoop ts shader fuel st = some st' ∧ LoopInv ts a0 ts.length st' := by
  intro fuel
  induction fuel with
  | zero => intro k st _ h; omega
  | succ fuel ih =>
    intro k st hinv hfuel
    obtain ⟨i, d, sp, no, he, calls⟩ := st
    have hi : i = k := hinv.1
    subst hi
    by_cases h : i < ts.length
    · rw [textureLoop]
      simp only [h, dite_true]
      exact ih (i + 1) _ (loopInv_step ts shader a0 i d sp no he calls hn h hinv) (by omega)
    · have hik : i = ts.length := by
        have := hinv.2.1
        omega
      rw [textureLoop]
      simp only [h, dite_false]
      exact ⟨_, rfl, hik ▸ hinv⟩

theorem loopInv_init (ts : List Texture) (a0 : Nat) :
    LoopInv ts a0 0
      { i := 0, diffuseNr := 1, specularNr := 1, normalNr := 1, heightNr := 1, calls := [] } := by
  simp [LoopInv, textureBindings, samplerUniforms, setIntCalls]

/-- The calls of `Mesh::Draw` on a textured mesh: the calls of the texture loop,
which bind and name the mesh's own textures and end with `i = textures.size()`,
followed by the shadow-map block and the draw. -/
theorem Draw_textured (m : Mesh) (shader : ShaderId) (depthMap : Nat) (renderShadow : Bool)
    (fuel a0 : Nat) (hcolor : m.mColor = sentinelColor) (hn : m.textures.length < 2 ^ 31)
    (hfuel : m.textures.length < fuel) :
    ∃ loopCalls : List Call,
      m.Draw shader depthMap renderShadow fuel
          = some (loopCalls
              ++ (if renderShadow then
                    [ Call.setInt shader "shadowMap" (m.textures.length : Int),
                      Call.glActiveTexture (GL_TEXTURE0 + m.textures.length),
                      Call.glBindTexture depthMap ]
                  else [])
              ++ [ Call.glBindVertexArray m.VAO,
                   Call.glDrawElements (toInt32 m.indices.length),
                   Call.glBindVertexArray 0,
                   Call.glActiveTexture GL_TEXTURE0 ])
        ∧ textureBindings a0 loopCalls = materialBindings m.textures
        ∧ samplerUniforms loopCalls = materialUniforms m.textures
        ∧ setIntCalls loopCalls = [] := by
  obtain ⟨st, hst, hinv⟩ := textureLoop_spec m.textures shader a0 hn fuel 0 _
    (loopInv_init m.textures a0) (by omega)
  obtain ⟨hi, -, -, -, -, -, hb, hu, hs⟩ := hinv
  rw [List.take_length] at hb hu
  have hunit : u32 (GL_TEXTURE0 + m.textures.length) = GL_TEXTURE0 + m.textures.length := by
    unfold u32 GL_TEXTURE0
    exact Nat.mod_eq_of_lt (by omega)
  have hint : toInt32 m.textures.length = (m.textures.length : Int) := by
    unfold toInt32
    have h1 : m.textures.length % 2 ^ 32 = m.textures.length := Nat.mod_eq_of_lt (by omega)
    rw [h1, if_pos (by omega)]
  refine ⟨st.calls, ?_, hb, hu, hs⟩
  unfold Mesh.Draw
  simp only [hcolor, ne_eq, not_true_eq_false, if_false, hst, Option.map_some', hi, hunit, hint]

/-- The calls of `Mesh::Draw` on a mesh with a colour of its own. -/
theorem Draw_solid (m : Mesh) (shader : ShaderId) (depthMap : Nat) (renderShadow : Bool)
    (fuel : Nat) (hcolor : m.mColor ≠ sentinelColor) :
    m.Draw shader depthMap renderShadow fuel
      = some ([Call.setVec3 shader "mColor" m.mColor]
          ++ (if renderShadow then
                [ Call.setInt shader "shadowMap" 0,
                  Call.glActiveTexture GL_TEXTURE0,
                  Call.glBindTexture depthMap ]
              else [])
          ++ [ Call.glBindVertexArray m.VAO,
               Call.glDrawElements (toInt32 m.indices.length),
               Call.glBindVertexArray 0,
               Call.glActiveTexture GL_TEXTURE0 ]) := by
  unfold Mesh.Draw
  simp only [hcolor, ne_eq, not_false_eq_true, if_true, Option.map_some']
  rfl

theorem materialBindings_getElem? (ts : List Texture) (i : Nat) (h : i < ts.length) :
    (materialBindings ts)[i]? = some (GL_TEXTURE0 + i, ts[i].id) := by
  simp [materialBindings, List.getElem?_map, List.getElem?_enum, List.getElem?_eq_getElem h]

theorem materialUniforms_getElem? (ts : List Texture) (i : Nat) (h : i < ts.length) :
    (materialUniforms ts)[i]? = some (samplerName ts i ts[i], (i : Int)) := by
  simp [materialUniforms, List.getElem?_map, List.getElem?_enum, List.getElem?_eq_getElem h]

theorem materialBindings_unit_lt (ts : List Texture) :
    ∀ b ∈ materialBindings ts, b.1 < GL_TEXTURE0 + ts.length := by
  intro b hb
  simp only [materialBindings, List.mem_map] at hb
  obtain ⟨p, hp, rfl⟩ := hb
  have := List.fst_lt_of_mem_enum hp
  simp only
  omega

/-- C9: for a mesh whose colour is the sentinel (-1,-1,-1), with fewer than 2^31
textures and fuel for one loop test per texture and the exit test, `Mesh::Draw`
returns, sets exactly one sampler uniform per texture, and for every list index
`i` the `i`-th texture binding puts `textures[i].id` on unit `GL_TEXTURE0 + i` and
the `i`-th sampler uniform has the value `i` and the name `samplerName`: the type
followed by the decimal of one plus the number of earlier textures of the same
type for the four numbered types, the bare type otherwise. -/
theorem Draw_binds_and_names_textures (m : Mesh) (shader : ShaderId) (depthMap : Nat)
    (renderShadow : Bool) (fuel a0 : Nat) (hcolor : m.mColor = sentinelColor)
    (hn : m.textures.length < 2 ^ 31) (hfuel : m.textures.length < fuel) :
    ∃ calls : List Call,
      m.Draw shader depthMap renderShadow fuel = some calls
        ∧ (samplerUniforms calls).length = m.textures.length
        ∧ ∀ (i : Nat) (h : i < m.textures.length),
            (textureBindings a0 calls)[i]? = some (GL_TEXTURE0 + i, m.textures[i].id)
              ∧ (samplerUniforms calls)[i]?
                  = some (samplerName m.textures i m.textures[i], (i : Int)) := by
  obtain ⟨loopCalls, hdraw, hb, hu, -⟩ :=
    Draw_textured m shader depthMap renderShadow fuel a0 hcolor hn hfuel
  have hsu : samplerUniforms
      (loopCalls
        ++ (if renderShadow then
              [ Call.setInt shader "shadowMap" (m.textures.length : Int),
                Call.glActiveTexture (GL_TEXTURE0 + m.textures.length),
                Call.glBindTexture depthMap ]
            else [])
        ++ [ Call.glBindVertexArray m.VAO,
             Call.glDrawElements (toInt32 m.indices.length),
             Call.glBindVertexArray 0,
             Call.glActiveTexture GL_TEXTURE0 ]) = materialUniforms m.textures := by
    unfold samplerUniforms at hu ⊢
    rw [List.filterMap_append, List.filterMap_append, hu]
    cases renderShadow <;> simp [samplerUniform?]
  refine ⟨_, hdraw, ?_, ?_⟩
  · rw [hsu]
    simp [materialUniforms]
  · intro i h
    constructor
    · rw [List.append_assoc, textureBindings_append, hb,
        List.getElem?_append_left (by simpa [materialBindings] using h)]
      exact materialBindings_getElem? m.textures i h
    · rw [hsu]
      exact materialUniforms_getElem? m.textures i h

/-- Witness for C9: the sample mesh (two diffuse maps, a normal map, a texture of
an unnumbered type) satisfies the hypotheses, and its samplers are
`texture_diffuse1`, `texture_normal1`, `texture_diffuse2` and `mask`. -/
theorem Draw_binds_and_names_textures_witness :
    sampleMesh.mColor = sentinelColor ∧ sampleMesh.textures.length < 2 ^ 31
      ∧ sampleMesh.textures.length < 5
      ∧ (sampleMesh.Draw .shader 42 true 5).map samplerUniforms
          = some [("texture_diffuse1", 0), ("texture_normal1", 1), ("texture_diffuse2", 2),
                  ("mask", 3)]
      ∧ ∃ calls : List Call,
          sampleMesh.Draw .shader 42 true 5 = some calls
            ∧ (samplerUniforms calls).length = sampleMesh.textures.length
            ∧ ∀ (i : Nat) (h : i < sampleMesh.textures.length),
                (textureBindings GL_TEXTURE0 calls)[i]?
                    = some (GL_TEXTURE0 + i, sampleMesh.textures[i].id)
                  ∧ (samplerUniforms calls)[i]?
                      = some (samplerName sampleMesh.textures i sampleMesh.textures[i],
                          (i : Int)) :=
  ⟨rfl, by decide, by decide, by decide,
   Draw_binds_and_names_textures sampleMesh .shader 42 true 5 GL_TEXTURE0 rfl (by decide)
     (by decide)⟩

/-- C10: for a mesh with fewer than 2^31 textures and fuel for its texture loop.
With `renderShadow = true` and the sentinel colour, `Mesh::Draw` binds the mesh's
own textures to the units `GL_TEXTURE0 + i`, `i < textures.size()`, and then the
depth map to unit `GL_TEXTURE0 + textures.size()`, a unit none of its own textures
is on, and sets `shadowMap` once, to `textures.size()`.  With `renderShadow = true`
and a colour of its own it binds only the depth map, on unit 0, and sets
`shadowMap` to 0.  With `renderShadow = false` it never calls `setInt`, and it
binds and sets nothing but the mesh's own textures and their samplers (none for a
solid colour). -/
theorem Draw_shadow_map_unit (m : Mesh) (shader : ShaderId) (depthMap : Nat) (fuel a0 : Nat)
    (hn : m.textures.length < 2 ^ 31) (hfuel : m.textures.length < fuel) :
    (m.mColor = sentinelColor →
        ∃ calls : List Call,
          m.Draw shader depthMap true fuel = some calls
            ∧ textureBindings a0 calls
                = materialBindings m.textures ++ [(GL_TEXTURE0 + m.textures.length, depthMap)]
            ∧ setIntCalls calls = [("shadowMap", (m.textures.length : Int))]
            ∧ ∀ b ∈ materialBindings m.textures, b.1 ≠ GL_TEXTURE0 + m.textures.length)
      ∧ (m.mColor ≠ sentinelColor →
          ∃ calls : List Call,
            m.Draw shader depthMap true fuel = some calls
              ∧ textureBindings a0 calls = [(GL_TEXTURE0 + 0, depthMap)]
              ∧ setIntCalls calls = [("shadowMap", 0)])
      ∧ ∃ calls : List Call,
          m.Draw shader depthMap false fuel = some calls
            ∧ setIntCalls calls = []
            ∧ textureBindings a0 calls
                = (if m.mColor = sentinelColor then materialBindings m.textures else [])
            ∧ samplerUniforms calls
                = (if m.mColor = sentinelColor then materialUniforms m.textures else []) := by
  refine ⟨?_, ?_, ?_⟩
  · intro hcolor
    obtain ⟨loopCalls, hdraw, hb, -, hs⟩ :=
      Draw_textured m shader depthMap true fuel a0 hcolor hn hfuel
    refine ⟨_, hdraw, ?_, ?_, ?_⟩
    · rw [List.append_assoc, textureBindings_append, hb]
      rfl
    · unfold setIntCalls at hs ⊢
      rw [List.filterMap_append, List.filterMap_append, hs]
      rfl
    · intro b hb2
      exact Nat.ne_of_lt (materialBindings_unit_lt m.textures b hb2)
  · intro hcolor
    exact ⟨_, Draw_solid m shader depthMap true fuel hcolor, rfl, rfl⟩
  · by_cases hcolor : m.mColor = sentinelColor
    · obtain ⟨loopCalls, hdraw, hb, hu, hs⟩ :=
        Draw_textured m shader depthMap false fuel a0 hcolor hn hfuel
      refine ⟨_, hdraw, ?_, ?_, ?_⟩
      · unfold setIntCalls at hs ⊢
        rw [List.filterMap_append, List.filterMap_append, hs]
        rfl
      · rw [List.append_assoc, textureBindings_append, hb, if_pos hcolor]
        simp [textureBindings]
      · unfold samplerUniforms at hu ⊢
        rw [List.filterMap_append, List.filterMap_append, hu, if_pos hcolor]
        simp [samplerUniform?]
    · refine ⟨_, Draw_solid m shader depthMap false fuel hcolor, rfl, ?_, ?_⟩
      · rw [if_neg hcolor]
        rfl
      · rw [if_neg hcolor]
        rfl

/-- Witness for C10: the sample mesh with four textures gets the depth map on
unit `GL_TEXTURE0 + 4`, with `shadowMap = 4`; the solid mesh gets it on unit 0. -/
theorem Draw_shadow_map_unit_witness :
    sampleMesh.textures.length < 2 ^ 31 ∧ sampleMesh.textures.length < 5
      ∧ (sampleMesh.Draw .shader 42 true 5).map (textureBindings GL_TEXTURE0)
          = some [(GL_TEXTURE0, 7), (GL_TEXTURE0 + 1, 9), (GL_TEXTURE0 + 2, 4),
                  (GL_TEXTURE0 + 3, 5), (GL_TEXTURE0 + 4, 42)]
      ∧ (solidMesh.Draw .shader 42 true 5).map (textureBindings GL_TEXTURE0)
          = some [(GL_TEXTURE0, 42)]
      ∧ ∃ calls : List Call,
          sampleMesh.Draw .shader 42 true 5 = some calls
            ∧ textureBindings GL_TEXTURE0 calls
                = materialBindings sampleMesh.textures
                    ++ [(GL_TEXTURE0 + sampleMesh.textures.length, 42)]
            ∧ setIntCalls calls = [("shadowMap", (sampleMesh.textures.length : Int))]
            ∧ ∀ b ∈ materialBindings sampleMesh.textures,
                b.1 ≠ GL_TEXTURE0 + sampleMesh.textures.length :=
  ⟨by decide, by decide, by decide, by decide,
   (Draw_shadow_map_unit sampleMesh .shader 42 5 GL_TEXTURE0 (by decide) (by decide)).1 rfl⟩

end LearnCG
